import Mathlib

/-!
Verification of the Ghirahim_Bot repository (src/ghirahim.py,
src/ghirahim_db/GhirahimDB.py, src/migrate.py) against its specification.

The Python code is shallowly embedded: classes become structures, stateful
Redis/Mongo access becomes explicit state passing over `DbState`, Python
exceptions become `Option`/`none` results, and real-time behaviour (the
regex evaluation budget, the URL extractor library) is parametrised by
oracles supplied as function arguments.
-/

set_option maxRecDepth 4096

namespace Ghirahim

/-! ## Domain model: UserRole (GhirahimDB.py lines 20-74) -/

/-- The `UserRole` enum from GhirahimDB.py: USER=0, SUBSCRIBER=1, VIP=2,
MODERATOR=3, BROADCASTER=4. -/
inductive UserRole where
  | USER
  | SUBSCRIBER
  | VIP
  | MODERATOR
  | BROADCASTER
deriving DecidableEq

/-- The numeric enum value assigned to each member in the Python source. -/
def UserRole.value : UserRole → Nat
  | .USER => 0
  | .SUBSCRIBER => 1
  | .VIP => 2
  | .MODERATOR => 3
  | .BROADCASTER => 4

/-- A Python value a `UserRole` may be compared against: either another
`UserRole` or a value of some other type (int, str, None). -/
inductive PyValue where
  | role (r : UserRole)
  | pyInt (n : Int)
  | pyStr (s : String)
  | pyNone
deriving DecidableEq

def PyValue.isRole : PyValue → Bool
  | .role _ => true
  | _ => false

/-- `UserRole.__gt__`: compares values when `other` is a `UserRole`,
otherwise returns `NotImplemented` (modelled as `none`); Python then raises
`TypeError` for an ordering comparison against a non-Role. -/
def pyGt (a : UserRole) : PyValue → Option Bool
  | .role b => some (decide (b.value < a.value))
  | _ => none

/-- `UserRole.__eq__`: compares values when `other` is a `UserRole`,
otherwise explicitly returns `False` (not `NotImplemented`). -/
def pyEq (a : UserRole) : PyValue → Bool
  | .role b => a.value == b.value
  | _ => false

/-- `__lt__` as derived by `functools.total_ordering` from `__gt__`:
`not (self > other) and self != other`, with `NotImplemented` passthrough. -/
def pyLt (a : UserRole) (v : PyValue) : Option Bool :=
  match pyGt a v with
  | none => none
  | some g => some (!g && !(pyEq a v))

/-- `__le__` as derived by `functools.total_ordering` from `__gt__`:
`not (self > other)`, with `NotImplemented` passthrough. -/
def pyLe (a : UserRole) (v : PyValue) : Option Bool :=
  match pyGt a v with
  | none => none
  | some g => some (!g)

/-- `__ge__` as derived by `functools.total_ordering` from `__gt__`:
`(self > other) or self == other`, with `NotImplemented` passthrough. -/
def pyGe (a : UserRole) (v : PyValue) : Option Bool :=
  match pyGt a v with
  | none => none
  | some g => some (g || pyEq a v)

/-! Python string primitives (`str.lower`, `str.upper`, `str.split`,
`str.replace`, `str.join`) are re-implemented structurally over character
lists so that every definition evaluates by kernel reduction. -/

/-- Whether `a` is a prefix of `b` (character lists). -/
def prefChars : List Char → List Char → Bool
  | [], _ => true
  | _ :: _, [] => false
  | x :: xs, y :: ys => x == y && prefChars xs ys

/-- Python `str.lower` (ASCII case mapping suffices for this code's data). -/
def pyLower (s : String) : String :=
  String.mk (s.toList.map Char.toLower)

/-- Python `str.upper`. -/
def pyUpper (s : String) : String :=
  String.mk (s.toList.map Char.toUpper)

/-- Python `str.split(sep)` for a one-character separator (keeps empty
fields, like Python's `split` with an explicit separator). -/
def splitOnChar (sep : Char) : List Char → List (List Char)
  | [] => [[]]
  | c :: rest =>
    let r := splitOnChar sep rest
    if c == sep then [] :: r
    else
      match r with
      | [] => [[c]]
      | h :: t => (c :: h) :: t

def pySplitChar (sep : Char) (s : String) : List String :=
  (splitOnChar sep s.toList).map String.mk

/-- Python `str.replace`, left-to-right and non-overlapping, for a non-empty
pattern.  The `Nat` argument is the input length, which bounds the
recursion; matching consumes at least one character per step, so the `0`
case is never reached from `pyReplace`. -/
def replChars (pat rep : List Char) : Nat → List Char → List Char
  | _, [] => []
  | 0, s => s
  | fuel + 1, c :: rest =>
    if prefChars pat (c :: rest) then
      rep ++ replChars pat rep fuel ((c :: rest).drop pat.length)
    else c :: replChars pat rep fuel rest

def pyReplace (s pat rep : String) : String :=
  String.mk (replChars pat.toList rep.toList s.toList.length s.toList)

/-- Python `sep.join(parts)`. -/
def pyJoin (sep : String) : List String → String
  | [] => ""
  | [s] => s
  | s :: rest => s ++ sep ++ pyJoin sep rest

/-- `UserRole.__str__`. -/
def UserRole.toStr : UserRole → String
  | .USER => "USER"
  | .SUBSCRIBER => "SUBSCRIBER"
  | .VIP => "VIP"
  | .MODERATOR => "MODERATOR"
  | .BROADCASTER => "BROADCASTER"

/-- `UserRole.fromStr`: returns `None` (here `none`) for invalid inputs. -/
def UserRole.fromStr (string : String) : Option UserRole :=
  match pyUpper string with
  | "USER" => some .USER
  | "SUBSCRIBER" => some .SUBSCRIBER
  | "VIP" => some .VIP
  | "MODERATOR" => some .MODERATOR
  | "BROADCASTER" => some .BROADCASTER
  | _ => none

/-! ## Domain model: Channel (GhirahimDB.py lines 77-135)

`Channel.__init__` sets exactly `name, slash, subdomains, userlevel, reply,
allow_list`.  The `dot` attribute used by ghirahim.py (`chan.dot`) is NOT set
by the constructor; in Python it only exists on an instance after an explicit
assignment (`chan.dot = True` in `chat_command`).  We model this dynamic
attribute as `dot : Option Bool`, `none` meaning the attribute is absent and
reading it raises `AttributeError`.  `userlevel` is `Option UserRole` because
`Channel.fromDict` stores the result of `UserRole.fromStr`, which can be
`None`. -/
structure Channel where
  name : String
  slash : Bool
  subdomains : Bool
  userlevel : Option UserRole
  reply : String
  allow_list : List String
  dot : Option Bool := none
deriving DecidableEq

/-- `Channel.fromDefaults`: slash=True, subdomains=True, userlevel=VIP,
reply="default", allow_list=[].  No `dot` attribute is assigned. -/
def Channel.fromDefaults (name : String) : Channel :=
  { name := name
    slash := true
    subdomains := true
    userlevel := some UserRole.VIP
    reply := "default"
    allow_list := [] }

/-- A MongoDB document for the "channels" collection, as produced by
`Channel.toDict` (note: there is no "dot" key). -/
structure ChannelDoc where
  name : String
  slash : Bool
  subdomains : Bool
  userlevel : String
  reply : String
  allow_list : List String
deriving DecidableEq

/-- Python `str` of a bool: `str(True) = "True"`. -/
def pyStrBool : Bool → String
  | true => "True"
  | false => "False"

/-- Python `str` applied to `channel.userlevel`: `UserRole.__str__` for a
role, `"None"` when the attribute holds `None`. -/
def pyStrOptRole : Option UserRole → String
  | some r => r.toStr
  | none => "None"

/-- `Channel.toDict`. -/
def Channel.toDict (c : Channel) : ChannelDoc :=
  { name := c.name
    slash := c.slash
    subdomains := c.subdomains
    userlevel := pyStrOptRole c.userlevel
    reply := c.reply
    allow_list := c.allow_list }

/-- `Channel.fromDict`: the constructed object again lacks the `dot`
attribute. -/
def Channel.fromDict (d : ChannelDoc) : Channel :=
  { name := d.name
    slash := d.slash
    subdomains := d.subdomains
    userlevel := UserRole.fromStr d.userlevel
    reply := d.reply
    allow_list := d.allow_list }

/-! ## Two-tier store state (GhirahimDB.py lines 138-231)

Redis hashes, Redis sets, Redis TTLs, the Mongo "channels" collection and
the ephemeral expiring string keys (`cooldown:*`, `permit:*`) are modelled
as association lists keyed by the same strings the source uses.  Time is an
explicit `now : Nat` (seconds) passed to the operations that consult or set
expiring keys. -/

def alistGet {α : Type} : List (String × α) → String → Option α
  | [], _ => none
  | (k, v) :: rest, key => if k == key then some v else alistGet rest key

def alistSet {α : Type} : List (String × α) → String → α → List (String × α)
  | [], key, v => [(key, v)]
  | (k, w) :: rest, key, v =>
    if k == key then (key, v) :: rest else (k, w) :: alistSet rest key v

def alistDel {α : Type} : List (String × α) → String → List (String × α)
  | [], _ => []
  | (k, w) :: rest, key => if k == key then rest else (k, w) :: alistDel rest key

structure DbState where
  redisHash : List (String × List (String × String))
  redisSet : List (String × List String)
  redisTtl : List (String × Nat)
  mongo : List ChannelDoc
  eph : List (String × Nat)
deriving DecidableEq

def emptyDb : DbState := ⟨[], [], [], [], []⟩

/-- `redis.hset key field value` (creates the hash if absent). -/
def hsetDb (db : DbState) (key fld v : String) : DbState :=
  { db with redisHash :=
      alistSet db.redisHash key (alistSet ((alistGet db.redisHash key).getD []) fld v) }

/-- `redis.hget key field` (returns `None` if the key or field is absent). -/
def hgetDb (db : DbState) (key fld : String) : Option String :=
  match alistGet db.redisHash key with
  | none => none
  | some h => alistGet h fld

/-- `redis.sadd key member` (a set: duplicate members are suppressed). -/
def saddDb (db : DbState) (key v : String) : DbState :=
  let old := (alistGet db.redisSet key).getD []
  { db with redisSet := alistSet db.redisSet key (if v ∈ old then old else old ++ [v]) }

/-- `redis.delete key` for the set keyspace. -/
def redisDelSet (db : DbState) (key : String) : DbState :=
  { db with redisSet := alistDel db.redisSet key }

/-- `redis.expire key seconds`.  The TTLs are recorded but never consulted by
the reads below, because every read in the claims happens at the same instant
as the write that (re)set the 30-minute TTL. -/
def expireDb (db : DbState) (key : String) (seconds : Nat) : DbState :=
  { db with redisTtl := alistSet db.redisTtl key seconds }

/-- `GhirahimDB._setChannelRedis`.  Note the source writes `slashStr` (the
string of `channel.slash`) into BOTH the "slash" and the "subdomains" hash
fields (GhirahimDB.py lines 185-190), and never writes a "dot" field. -/
def _setChannelRedis (db : DbState) (channel : Channel) : DbState :=
  let slashStr := pyStrBool channel.slash
  let roleStr := pyStrOptRole channel.userlevel
  let redisName := "channel:" ++ channel.name
  let db := hsetDb db (redisName ++ ":config") "name" channel.name
  let db := hsetDb db (redisName ++ ":config") "slash" slashStr
  let db := hsetDb db (redisName ++ ":config") "subdomains" slashStr
  let db := hsetDb db (redisName ++ ":config") "userlevel" roleStr
  let db := hsetDb db (redisName ++ ":config") "reply" channel.reply
  let db := redisDelSet db (redisName ++ ":allowlist")
  let db := channel.allow_list.foldl (fun d dom => saddDb d (redisName ++ ":allowlist") dom) db
  let db := expireDb db (redisName ++ ":config") 1800
  expireDb db (redisName ++ ":allowlist") 1800

/-- `GhirahimDB._getChannelRedis`.  The hash fields are always written
together by `_setChannelRedis`, so when the existence check passes the
`getD ""` defaults below are never exercised on this code's own data. -/
def _getChannelRedis (db : DbState) (name : String) : Option Channel :=
  let redisName := "channel:" ++ name
  let existsCount :=
    (if (alistGet db.redisHash (redisName ++ ":config")).isSome then 1 else 0)
    + (if (alistGet db.redisSet (redisName ++ ":allowlist")).isSome then 1 else 0)
  if existsCount < 2 then none
  else
    let slash := hgetDb db (redisName ++ ":config") "slash" == some "True"
    let subdomains := hgetDb db (redisName ++ ":config") "subdomains" == some "True"
    let userlevel := UserRole.fromStr (pyUpper ((hgetDb db (redisName ++ ":config") "userlevel").getD ""))
    let reply := (hgetDb db (redisName ++ ":config") "reply").getD ""
    let allow_list := (alistGet db.redisSet (redisName ++ ":allowlist")).getD []
    some { name := name, slash := slash, subdomains := subdomains,
           userlevel := userlevel, reply := reply, allow_list := allow_list }

/-- `mongo.channels.replace_one({"name": name}, doc, upsert=True)`. -/
def mongoReplaceOne : List ChannelDoc → String → ChannelDoc → List ChannelDoc
  | [], _, d => [d]
  | doc :: rest, n, d =>
    if doc.name == n then d :: rest else doc :: mongoReplaceOne rest n d

/-- `mongo.channels.find_one({"name": name})`. -/
def mongoFindOne : List ChannelDoc → String → Option ChannelDoc
  | [], _ => none
  | doc :: rest, n => if doc.name == n then some doc else mongoFindOne rest n

/-- `GhirahimDB._setChannelMongo`. -/
def _setChannelMongo (db : DbState) (channel : Channel) : DbState :=
  { db with mongo := mongoReplaceOne db.mongo channel.name (Channel.toDict channel) }

/-- `GhirahimDB._getChannelMongo`. -/
def _getChannelMongo (db : DbState) (name : String) : Option Channel :=
  (mongoFindOne db.mongo name).map Channel.fromDict

/-- `GhirahimDB.setChannel`: write Redis, then Mongo. -/
def setChannel (db : DbState) (channel : Channel) : DbState :=
  _setChannelMongo (_setChannelRedis db channel) channel

/-- `GhirahimDB.getChannel`: Redis first; on a miss fall through to Mongo
and, when found there, populate the Redis cache.  Returns the channel and
the (possibly updated) store state. -/
def getChannel (db : DbState) (name : String) : Option Channel × DbState :=
  match _getChannelRedis db name with
  | some c => (some c, db)
  | none =>
    match _getChannelMongo db name with
    | none => (none, db)
    | some c => (some c, _setChannelRedis db c)

/-- The "!join" arm of `GhirahimBot.pubmsg_ownchannel` (ghirahim.py lines
227-237): create the channel from defaults only when it does not exist, and
write it through the repository. -/
def joinCommand (db : DbState) (nick : String) : DbState :=
  let g := getChannel db nick
  match g.1 with
  | none => setChannel g.2 (Channel.fromDefaults nick)
  | some _ => g.2

/-! ## Ephemeral keys: cooldowns and the send wrapper -/

/-- `redis.setex key ttl value` at time `now`: the key expires `ttlSeconds`
later.  (Only presence matters for the `cooldown:`/`permit:` keys.) -/
def setex (db : DbState) (now : Nat) (key : String) (ttlSeconds : Nat) : DbState :=
  { db with eph := alistSet db.eph key (now + ttlSeconds) }

/-- `redis.get key` at time `now`: `none` once the key has expired. -/
def ephGet (db : DbState) (now : Nat) (key : String) : Option Nat :=
  match alistGet db.eph key with
  | some expiry => if now < expiry then some expiry else none
  | none => none

/-- `GhirahimDB.setChannelCooldown`: `setex("cooldown:" + channel, 5 minutes)`. -/
def setChannelCooldown (db : DbState) (now : Nat) (channel : String) : DbState :=
  setex db now ("cooldown:" ++ channel) 300

/-- `GhirahimDB.checkChannelCooldown`. -/
def checkChannelCooldown (db : DbState) (now : Nat) (channel : String) : Bool :=
  (ephGet db now ("cooldown:" ++ channel)).isSome

/-- `GhirahimBot.send_privmsg` (ghirahim.py lines 104-106): the outbound send
wrapper.  Returns the list of messages actually passed to `c.privmsg` —
empty when the channel (the target minus its leading '#') is on cooldown. -/
def send_privmsg (db : DbState) (now : Nat) (target message : String) : List (String × String) :=
  if !(checkChannelCooldown db now (target.drop 1)) then [(target, message)] else []

/-! ## String helpers modelling Python primitives -/

/-- Whether `needle` occurs as a contiguous subsequence of `hay`. -/
def subChars (needle : List Char) : List Char → Bool
  | [] => needle.isEmpty
  | c :: rest => prefChars needle (c :: rest) || subChars needle rest

/-- Python's substring test `needle in hay`. -/
def pyIn (needle hay : String) : Bool :=
  subChars needle.toList hay.toList

def isAsciiLetterB (c : Char) : Bool :=
  ('a' ≤ c && c ≤ 'z') || ('A' ≤ c && c ≤ 'Z')

def isAlnumB (c : Char) : Bool :=
  isAsciiLetterB c || ('0' ≤ c && c ≤ '9')

/-- A character allowed in a URL scheme by `urllib.parse`. -/
def schemeChar (c : Char) : Bool :=
  isAlnumB c || c == '+' || c == '-' || c == '.'

/-- The bot's own scheme test `re.compile(r"^[a-zA-Z0-9]+://").match(url)`
(ghirahim.py line 41). -/
def urlregexMatch (url : String) : Bool :=
  let ts := url.toList
  let pre := ts.takeWhile isAlnumB
  !pre.isEmpty && ((ts.drop pre.length).take 3 == [':', '/', '/'])

/-- `urllib.parse.urlparse(url).netloc`: strip a leading `scheme:` (the
scheme must start with an ASCII letter and contain only scheme characters up
to the first ':'), then, if the remainder starts with "//", the netloc runs
up to the first of '/', '?', '#'. -/
def urlparseNetloc (url : String) : String :=
  let ts := url.toList
  let rest :=
    match ts with
    | [] => ts
    | c :: _ =>
      if isAsciiLetterB c then
        let pre := ts.takeWhile schemeChar
        match ts.drop pre.length with
        | ':' :: r => r
        | _ => ts
      else ts
  match rest with
  | '/' :: '/' :: r =>
    String.mk (r.takeWhile (fun c => !(c == '/' || c == '?' || c == '#')))
  | _ => ""

/-- Python `list.remove`: remove the first occurrence, `none` when the value
is absent (a `ValueError` in Python). -/
def listRemove (l : List String) (x : String) : Option (List String) :=
  match l with
  | [] => none
  | a :: rest =>
    if a == x then some rest else (listRemove rest x).map (a :: ·)

/-! ## Link extraction and matching engine (ghirahim.py lines 176-221)

The URL extractor (`urlextract.URLExtract.find_urls`) and the timed regex
evaluation (`regex.findall(url, timeout=0.1)`) are external, real-time
dependencies; they enter the model as oracles.  Exceptions that the Python
code does not catch (`AttributeError` for a missing `dot` attribute,
`IndexError` for `item[0]` on an empty entry, `ValueError` from
`list.remove`, `re.error` from compiling a bad pattern) make the whole call
return `none`. -/

/-- Outcome of compiling an allow-list pattern and running
`findall(url, timeout=0.1)`: a result, a `TimeoutError`, or an uncaught
compile error. -/
inductive RegexResult where
  | found (nonEmpty : Bool)
  | timeout
  | compileError
deriving DecidableEq

structure ExtractResult where
  domains : List String
  chan : Channel
  db : DbState
  sends : List (String × String)
deriving DecidableEq

/-- The inner loop `for regex in (item for item in allow_list if ...)` for
one candidate URL.  Python iterates the live list by position while the
`except TimeoutError` branch may call `chan.allow_list.remove(...)` on the
same list, so the loop is modelled with an explicit position `pos`; `k`
bounds the number of remaining iterations (each step increments `pos` while
the list never grows, so `allow_list.length - pos` strictly decreases and
the `0` case is reached only once `pos` has run off the end). -/
def regexLoopK (rf : String → String → RegexResult) (now : Nat) (url : String) :
    Nat → Nat → Bool → Channel → DbState → List (String × String) →
    Option (Bool × Channel × DbState × List (String × String))
  | 0, _, allowed, chan, db, sends => some (allowed, chan, db, sends)
  | k + 1, pos, allowed, chan, db, sends =>
    match chan.allow_list[pos]? with
    | none => some (allowed, chan, db, sends)
    | some item =>
      if item.length == 0 then none
      else if item.front == '/' && item.back == '/' then
        let p := (item.drop 1).dropRight 1
        match rf p url with
        | .found b => regexLoopK rf now url k (pos + 1) (allowed || b) chan db sends
        | .compileError => none
        | .timeout =>
          match listRemove chan.allow_list p with
          | none => none
          | some l2 =>
            let chan2 := { chan with allow_list := l2 }
            let db2 := setChannel db chan2
            let sends2 := sends ++ send_privmsg db2 now ("#" ++ chan2.name)
                ("Timeout while parsing regex. Removed " ++ p ++ " from allowed list.")
            regexLoopK rf now url k (pos + 1) allowed chan2 db2 sends2
      else regexLoopK rf now url k (pos + 1) allowed chan db sends

/-- The wildcard pass
`for wildcard in (item for item in allow_list if item[0] == '*')`. -/
def wildcardScan (domain : String) : List String → Bool → Option Bool
  | [], allowed => some allowed
  | item :: rest, allowed =>
    if item.length == 0 then none
    else if item.front == '*' then
      wildcardScan domain rest (allowed || pyIn (item.drop 2) domain)
    else wildcardScan domain rest allowed

/-- The body of `extract_urls` iterating over the extracted candidate URLs.
`slash`, `dot` and `subdomains` are the local copies taken from the channel
before the loop; `chan`/`db`/`sends` evolve through timeout evictions.  The
Python `domains` set is modelled as an insertion-ordered duplicate-free
list. -/
def urlsLoop (rf : String → String → RegexResult) (now : Nat) (message : String)
    (slash dot subdomains : Bool) :
    List String → List String → Channel → DbState → List (String × String) →
    Option ExtractResult
  | [], domains, chan, db, sends => some ⟨domains, chan, db, sends⟩
  | url :: rest, domains, chan, db, sends =>
    match regexLoopK rf now url chan.allow_list.length 0 false chan db sends with
    | none => none
    | some (allowed, chan2, db2, sends2) =>
      if (slash && pyIn "/" message) || (dot && decide (1 < url.toList.count '.')) || (!slash) then
        let url2 := if urlregexMatch url then url else "//" ++ url
        let domain := urlparseNetloc url2
        match wildcardScan domain chan2.allow_list allowed with
        | none => none
        | some allowed2 =>
          let allowed3 :=
            if subdomains then allowed2 || chan2.allow_list.any (fun item => pyIn item domain)
            else allowed2 || decide (domain ∈ chan2.allow_list)
          let domains2 :=
            if allowed3 then domains
            else if domain ∈ domains then domains else domains ++ [domain]
          urlsLoop rf now message slash dot subdomains rest domains2 chan2 db2 sends2
      else urlsLoop rf now message slash dot subdomains rest domains chan2 db2 sends2

/-- `GhirahimBot.extract_urls` (ghirahim.py lines 176-221).  `fU` is the
URLExtract oracle (`self.extractor.find_urls`), `rf` the timed-regex oracle.
Reading `chan.dot` on a channel without the attribute raises
`AttributeError`, so the call returns `none` in that case. -/
def extract_urls (fU : String → List String) (rf : String → String → RegexResult)
    (now : Nat) (message : String) (chan : Channel) (db : DbState) : Option ExtractResult :=
  match chan.dot with
  | none => none
  | some dot =>
    urlsLoop rf now message chan.slash dot chan.subdomains (fU message) [] chan db []

/-- `GhirahimBot.get_reply` (ghirahim.py lines 247-255). -/
def get_reply (chan : Channel) (user : String) : Option String :=
  if pyReplace (pyLower chan.reply) "__user__, " "" = "off" then none
  else if pyReplace (pyLower chan.reply) "__user__, " "" = "default" then
    some ("@" ++ user ++ ", please ask for permission before posting a link.")
  else some (pyReplace chan.reply "__user__" user)

/-! ## Command dispatcher: the `!links allow|add` arm (ghirahim.py 267-274) -/

/-- One step of `for domain in domains: if domain not in chan.allow_list:
chan.allow_list.append(domain)`. -/
def allowInsert (l : List String) (domain : String) : List String :=
  if domain ∈ l then l else l ++ [domain]

/-- The `!links allow|add <domains...>` command body applied to a channel
(the domains are the casefolded command tokens; `setChannel` follows in the
source and does not change the in-memory list). -/
def linksAllowCmd (chan : Channel) (domains : List String) : Channel :=
  { chan with allow_list := domains.foldl allowInsert chan.allow_list }

/-! ## Role resolution (ghirahim.py lines 145-174) -/

/-- The `match badge.split("/")[0].lower()` statement: the role named by a
badge entry, or `dflt` when the badge is not a role badge. -/
def badgeMatch (badge : String) (dflt : UserRole) : UserRole :=
  let key := pyLower ((pySplitChar '/' badge).headD "")
  if key = "broadcaster" then UserRole.BROADCASTER
  else if key = "moderator" then UserRole.MODERATOR
  else if key = "vip" then UserRole.VIP
  else if key = "subscriber" then UserRole.SUBSCRIBER
  else dflt

/-- `GhirahimBot.parse_badges`: fold the badge list, keeping the new role
only when `new > role`. -/
def parse_badges : Option String → UserRole
  | none => UserRole.USER
  | some s =>
    (pySplitChar ',' s).foldl
      (fun role badge =>
        let new := badgeMatch badge role
        if role.value < new.value then new else role)
      UserRole.USER

/-- The spec's reading of role resolution: each badge entry denotes a role
(broadcaster, moderator, vip, subscriber — anything else denotes none,
i.e. USER), and the resolved role is their maximum, defaulting to USER. -/
def badgeEntryRole (badge : String) : UserRole :=
  badgeMatch badge UserRole.USER

/-- Maximum of two roles under the role order. -/
def UserRole.maxR (a b : UserRole) : UserRole :=
  if a.value < b.value then b else a

/-- Spec-side role resolution: the maximum of the roles denoted by the badge
entries, defaulting to USER. -/
def rolesMax : Option String → UserRole
  | none => UserRole.USER
  | some s => ((pySplitChar ',' s).map badgeEntryRole).foldl UserRole.maxR UserRole.USER

/-! ## Moderation engine: pubmsg_otherchannel (ghirahim.py lines 362-391) -/

/-- The fields of an inbound PRIVMSG event the handler consumes.  Tag values
may be absent (`none`), in which case the `next(...)`/attribute accesses in
the source raise. -/
structure Event where
  target : String
  sourceNick : String
  badges : Option String
  displayName : Option String
  msgId : Option String
  arguments : List String

/-- The terminal outcome of handling one public message in a moderated
channel.  `errored` stands for an uncaught Python exception escaping the
handler. -/
inductive ModOutcome where
  | partChannel
  | commandDispatched
  | noAction
  | exemptIgnored
  | linkCheckClean
  | deleted (sends : List (String × String))
  | errored
deriving DecidableEq

/-- `optRoleToPy`: what `chan.userlevel` looks like on the right-hand side
of `role >= chan.userlevel`. -/
def optRoleToPy : Option UserRole → PyValue
  | some r => PyValue.role r
  | none => PyValue.pyNone

/-- The body of `pubmsg_otherchannel` after the config lookup succeeded. -/
def pubmsgWithChan (fU : String → List String) (rf : String → String → RegexResult)
    (now : Nat) (db : DbState) (ev : Event) (chan : Channel) : ModOutcome :=
  let role := parse_badges ev.badges
  match pyGe role (PyValue.role UserRole.MODERATOR) with
  | none => ModOutcome.errored
  | some true =>
    match ev.arguments with
    | [] => ModOutcome.errored
    | a0 :: _ =>
      if a0.length == 0 then ModOutcome.errored
      else if a0.front == '!' then ModOutcome.commandDispatched
      else ModOutcome.noAction
  | some false =>
    match pyGe role (optRoleToPy chan.userlevel) with
    | none => ModOutcome.errored
    | some true => ModOutcome.exemptIgnored
    | some false =>
      match ev.displayName, ev.msgId with
      | some _, some mid =>
        match extract_urls fU rf now (pyJoin " " ev.arguments) chan db with
        | none => ModOutcome.errored
        | some res =>
          if res.domains.isEmpty then ModOutcome.linkCheckClean
          else ModOutcome.deleted
            (send_privmsg res.db now ev.target ("/delete " ++ mid)
              ++ (match get_reply res.chan ev.sourceNick with
                  | none => []
                  | some r => send_privmsg res.db now ev.target r))
      | _, _ => ModOutcome.errored

/-- `GhirahimBot.pubmsg_otherchannel`. -/
def pubmsg_otherchannel (fU : String → List String) (rf : String → String → RegexResult)
    (now : Nat) (db : DbState) (ev : Event) : ModOutcome :=
  let g := getChannel db (ev.target.drop 1)
  match g.1 with
  | none => ModOutcome.partChannel
  | some chan => pubmsgWithChan fU rf now g.2 ev chan

/-! ## Concrete inputs used by counterexamples and witnesses -/

/-- A channel whose `slash` and `subdomains` flags differ. -/
def chanC1 : Channel :=
  { name := "c", slash := true, subdomains := false, userlevel := some UserRole.VIP,
    reply := "default", allow_list := ["x"] }

/-- A channel with a single regex allow-list entry. -/
def chanC2 : Channel :=
  { name := "c", slash := true, subdomains := true, userlevel := some UserRole.VIP,
    reply := "default", allow_list := ["/(a+)+$/"], dot := some true }

/-- A default-like channel with the `dot` attribute set to `True`. -/
def chanC3 : Channel :=
  { name := "c", slash := true, subdomains := true, userlevel := some UserRole.VIP,
    reply := "default", allow_list := [], dot := some true }

/-- URLExtract oracle finding the single bare host `a.b.co`. -/
def fUC3 : String → List String := fun _ => ["a.b.co"]

/-- URLExtract oracle for chanC2's message. -/
def fUC2 : String → List String := fun _ => ["aaaa.example/x"]

/-- Timed-regex oracle in which every evaluation exceeds the 100ms budget. -/
def rfTimeout : String → String → RegexResult := fun _ _ => RegexResult.timeout

/-- Timed-regex oracle in which every evaluation completes with no match. -/
def rfFoundFalse : String → String → RegexResult := fun _ _ => RegexResult.found false

/-- A store whose Mongo tier holds one configured channel `c`. -/
def dbC6 : DbState := { emptyDb with mongo := [⟨"c", true, true, "VIP", "default", []⟩] }

/-- A message event from a moderator in channel `#c`. -/
def evC6 : Event := ⟨"#c", "modnick", some "moderator/1", some "Mod", some "id1", ["!links", "list"]⟩

/-- chanC3 with replies turned off through the template "__user__, off". -/
def chanOff : Channel := { chanC3 with reply := "__user__, off" }

/-- chanC3 with a mixed-case "default" template. -/
def chanDef : Channel := { chanC3 with reply := "DeFaUlT" }

/-! ## Helper lemmas -/

theorem foldl_fun_congr {α β : Type} (f g : β → α → β) (h : ∀ b a, f b a = g b a) :
    ∀ (l : List α) (b : β), l.foldl f b = l.foldl g b := by
  intro l
  induction l with
  | nil => intro b; rfl
  | cons x xs ih => intro b; rw [List.foldl_cons, List.foldl_cons, h, ih]

theorem alistGet_alistSet {α : Type} (l : List (String × α)) (k : String) (v : α) :
    alistGet (alistSet l k v) k = some v := by
  induction l with
  | nil => simp [alistGet, alistSet]
  | cons p rest ih =>
    obtain ⟨k2, w⟩ := p
    by_cases hk : k2 == k
    · simp [alistGet, alistSet, hk]
    · simp [alistGet, alistSet, hk, ih]

theorem count_allowInsert (l : List String) (x : String) (h : l.count x ≤ 1) :
    (allowInsert l x).count x = 1 := by
  unfold allowInsert
  by_cases hm : x ∈ l
  · rw [if_pos hm]
    have h1 : 0 < l.count x := List.count_pos_iff.mpr hm
    omega
  · rw [if_neg hm]
    rw [List.count_append, List.count_eq_zero.mpr hm]
    simp

theorem mem_allowInsert (l : List String) (x : String) : x ∈ allowInsert l x := by
  unfold allowInsert
  by_cases hm : x ∈ l
  · rw [if_pos hm]; exact hm
  · rw [if_neg hm]; simp

theorem allowInsert_of_mem (l : List String) (x : String) (h : x ∈ l) :
    allowInsert l x = l := by
  unfold allowInsert
  rw [if_pos h]

theorem linksAllowCmd_single (c : Channel) (x : String) :
    (linksAllowCmd c [x]).allow_list = allowInsert c.allow_list x := rfl

theorem linksAllowCmd_fix (c : Channel) (x : String) (h : x ∈ c.allow_list) :
    linksAllowCmd c [x] = c := by
  cases c
  unfold linksAllowCmd
  simp only [List.foldl_cons, List.foldl_nil]
  simp [allowInsert_of_mem _ _ h]

theorem string_length_zero_iff (s : String) : s.length = 0 ↔ s = "" := by
  cases s with
  | mk data =>
    rw [String.ext_iff]
    show data.length = 0 ↔ data = "".data
    simp

/-- The folding step of `parse_badges` equals taking the maximum with the
role denoted by the badge entry. -/
theorem parse_badges_fold_step (r : UserRole) (badge : String) :
    (let new := badgeMatch badge r; if r.value < new.value then new else r)
      = UserRole.maxR r (badgeEntryRole badge) := by
  show (if r.value < (badgeMatch badge r).value then badgeMatch badge r else r)
      = UserRole.maxR r (badgeEntryRole badge)
  unfold badgeEntryRole UserRole.maxR badgeMatch
  by_cases h1 : pyLower ((pySplitChar '/' badge).head?.getD "") = "broadcaster"
  · simp [h1]
  by_cases h2 : pyLower ((pySplitChar '/' badge).head?.getD "") = "moderator"
  · simp [h1, h2]
  by_cases h3 : pyLower ((pySplitChar '/' badge).head?.getD "") = "vip"
  · simp [h1, h2, h3]
  by_cases h4 : pyLower ((pySplitChar '/' badge).head?.getD "") = "subscriber"
  · simp [h1, h2, h3, h4]
  · simp [h1, h2, h3, h4, UserRole.value]

/-- When `requireSlash` is set and the raw message has no '/', and the local
`dot` copy is false, the per-URL condition of `extract_urls` is false for
every candidate, so the accumulated domain list never grows. -/
theorem urlsLoop_slash_blocks (rf : String → String → RegexResult) (now : Nat)
    (message : String) (subdomains : Bool) (hm : pyIn "/" message = false) :
    ∀ (urls domains : List String) (chan : Channel) (db : DbState)
      (sends : List (String × String)),
      (urlsLoop rf now message true false subdomains urls domains chan db sends).map
          ExtractResult.domains = none
      ∨ (urlsLoop rf now message true false subdomains urls domains chan db sends).map
          ExtractResult.domains = some domains := by
  intro urls
  induction urls with
  | nil =>
    intro domains chan db sends
    right
    rfl
  | cons url rest ih =>
    intro domains chan db sends
    rcases h : regexLoopK rf now url chan.allow_list.length 0 false chan db sends with _ | ⟨allowed, chan2, db2, sends2⟩
    · left
      simp [urlsLoop, h]
    · simp only [urlsLoop, h, hm, Bool.and_false, Bool.false_and, Bool.false_or,
        Bool.and_true, Bool.not_true, Bool.or_false]
      exact ih domains chan2 db2 sends2

/-! ## Claim theorems -/

/-- C1: the claim says `setChannel` then `getChannel` round-trips every
field through both tiers.  It does not: `_setChannelRedis` writes
`str(channel.slash)` into the "subdomains" hash field, so a channel stored
with `slash=True, subdomains=False` is read back from the cache tier with
`subdomains=True` (and no `dot`/requireMultiDot field is persisted at all).
This theorem evaluates the embedded code at the failing input. -/
theorem put_get_flips_subdomains :
    ((getChannel (setChannel emptyDb chanC1) "c").1.map fun ch => ch.subdomains) = some true
    ∧ chanC1.subdomains = false := by decide

/-- C2: the claim says a timed-out regex entry is itself removed from the
allow list, the change written through, a notice sent, and processing
continues.  The code instead calls `chan.allow_list.remove(regex)` after
rebinding `regex` to the entry stripped of its '/' delimiters; the stripped
pattern is not in the list, so `list.remove` raises `ValueError` and
`extract_urls` aborts: nothing is removed, written, or sent.  This theorem
evaluates the embedded code on a channel whose allow list is
`["/(a+)+$/"]` under a timeout oracle, and records that removing the
stripped pattern fails. -/
theorem regex_timeout_eviction_raises :
    extract_urls fUC2 rfTimeout 0 "check aaaa.example/x" chanC2 emptyDb = none
    ∧ listRemove chanC2.allow_list "(a+)+$" = none := by decide

/-- C3 (counterexample): with `requireSlash` set and a message containing no
'/', a candidate with more than one '.' is still reported when
`requireMultiDot` is set — the slash check does NOT short-circuit the dot
check, because the source combines them with `or`:
`(slash and "/" in message) or (dot and url.count(".") > 1) or (not slash)`. -/
theorem slash_does_not_short_circuit_dot :
    pyIn "/" "check out a.b.co" = false
    ∧ chanC3.slash = true
    ∧ chanC3.dot = some true
    ∧ (extract_urls fUC3 rfFoundFalse 0 "check out a.b.co" chanC3 emptyDb).map
        ExtractResult.domains = some ["a.b.co"] := by decide

/-- C3 (amended): with `requireSlash` set and no '/' in the raw message, a
candidate counts as a link only if `requireMultiDot` is set and it has more
than one dot; in particular when the channel's `dot` attribute is `False`,
`extract_urls` reports no domains whenever it returns normally (it may
instead abort with an exception, e.g. a regex-entry timeout, per C2). -/
theorem requireSlash_no_slash_needs_multidot (fU : String → List String)
    (rf : String → String → RegexResult) (now : Nat) (message : String)
    (chan : Channel) (db : DbState)
    (hs : chan.slash = true) (hd : chan.dot = some false)
    (hm : pyIn "/" message = false) :
    (extract_urls fU rf now message chan db).map ExtractResult.domains = none
    ∨ (extract_urls fU rf now message chan db).map ExtractResult.domains = some [] := by
  simp only [extract_urls, hd, hs]
  exact urlsLoop_slash_blocks rf now message chan.subdomains hm (fU message) [] chan db []

/-- Witness for C3's amended theorem at a concrete channel and message. -/
theorem requireSlash_no_slash_witness :
    (extract_urls fUC3 rfFoundFalse 0 "hello a.b.co" { chanC3 with dot := some false }
        emptyDb).map ExtractResult.domains = none
    ∨ (extract_urls fUC3 rfFoundFalse 0 "hello a.b.co" { chanC3 with dot := some false }
        emptyDb).map ExtractResult.domains = some [] :=
  requireSlash_no_slash_needs_multidot fUC3 rfFoundFalse 0 "hello a.b.co"
    { chanC3 with dot := some false } emptyDb rfl rfl (by decide)

/-- C4: the claim says `!join` creates a configuration with
`requireMultiDot=true` among the defaults.  `Channel.fromDefaults` sets
`slash`, `subdomains`, `userlevel`, `reply` and `allow_list` as claimed but
assigns NO `dot` attribute at all (reading `chan.dot` later raises
`AttributeError`); migrate.py backfills `dot=True`, showing the spec states
the intent.  This theorem evaluates the created channel and the document the
join command persists. -/
theorem join_defaults_lack_dot :
    (Channel.fromDefaults "alice").slash = true
    ∧ (Channel.fromDefaults "alice").subdomains = true
    ∧ (Channel.fromDefaults "alice").userlevel = some UserRole.VIP
    ∧ (Channel.fromDefaults "alice").reply = "default"
    ∧ (Channel.fromDefaults "alice").allow_list = []
    ∧ (Channel.fromDefaults "alice").dot = none
    ∧ mongoFindOne (joinCommand emptyDb "alice").mongo "alice"
        = some (Channel.toDict (Channel.fromDefaults "alice")) := by decide

/-- C5 (counterexample): the claim says comparing a Role against a value of
any other type is rejected as an error rather than yielding a default result
such as false — but `UserRole.__eq__` explicitly returns `False` for a
non-Role operand, so `UserRole.USER == 5` yields the default `False`. -/
theorem role_eq_nonrole_returns_false :
    pyEq UserRole.USER (PyValue.pyInt 5) = false := rfl

/-- C5 (amended): the Role order USER < SUBSCRIBER < VIP < MODERATOR <
BROADCASTER holds for every pairwise comparison, and ordering comparisons
(`<`, `>`, `<=`, `>=`) against a non-Role value are rejected
(`NotImplemented`, hence `TypeError`); equality against a non-Role value,
however, returns `False` rather than an error. -/
theorem role_order_and_cross_type :
    (∀ a b : UserRole,
        pyLt a (PyValue.role b) = some (decide (a.value < b.value))
        ∧ pyGt a (PyValue.role b) = some (decide (b.value < a.value))
        ∧ pyLe a (PyValue.role b) = some (decide (a.value ≤ b.value))
        ∧ pyGe a (PyValue.role b) = some (decide (b.value ≤ a.value))
        ∧ (pyEq a (PyValue.role b) = true ↔ a = b))
    ∧ (UserRole.USER.value < UserRole.SUBSCRIBER.value
       ∧ UserRole.SUBSCRIBER.value < UserRole.VIP.value
       ∧ UserRole.VIP.value < UserRole.MODERATOR.value
       ∧ UserRole.MODERATOR.value < UserRole.BROADCASTER.value)
    ∧ (∀ (a : UserRole) (v : PyValue), v.isRole = false →
        pyGt a v = none ∧ pyLt a v = none ∧ pyLe a v = none ∧ pyGe a v = none
        ∧ pyEq a v = false) := by
  refine ⟨?_, by decide, ?_⟩
  · intro a b
    cases a <;> cases b <;> exact ⟨by decide, by decide, by decide, by decide, by decide⟩
  · intro a v hv
    cases v with
    | role r => simp [PyValue.isRole] at hv
    | pyInt n => exact ⟨rfl, rfl, rfl, rfl, rfl⟩
    | pyStr s => exact ⟨rfl, rfl, rfl, rfl, rfl⟩
    | pyNone => exact ⟨rfl, rfl, rfl, rfl, rfl⟩

/-- Witness for C5's amended theorem: ordering against the int 5 is
rejected, equality against it returns false. -/
theorem role_order_witness :
    pyGe UserRole.USER (PyValue.pyInt 5) = none
    ∧ pyEq UserRole.USER (PyValue.pyInt 5) = false :=
  ⟨(role_order_and_cross_type.2.2 UserRole.USER (PyValue.pyInt 5) rfl).2.2.2.1,
   (role_order_and_cross_type.2.2 UserRole.USER (PyValue.pyInt 5) rfl).2.2.2.2⟩

/-- C6: in a configured channel, a sender whose resolved role is MODERATOR
or higher never reaches the link check and never triggers a delete: the
handler either dispatches a chat command (message starts with '!') or does
nothing. -/
theorem moderators_never_link_checked (fU : String → List String)
    (rf : String → String → RegexResult) (now : Nat) (db : DbState) (ev : Event)
    (chan : Channel) (a0 : String) (rest : List String)
    (hchan : (getChannel db (ev.target.drop 1)).1 = some chan)
    (hrole : pyGe (parse_badges ev.badges) (PyValue.role UserRole.MODERATOR) = some true)
    (hargs : ev.arguments = a0 :: rest)
    (h0 : a0 ≠ "") :
    pubmsg_otherchannel fU rf now db ev = ModOutcome.commandDispatched
    ∨ pubmsg_otherchannel fU rf now db ev = ModOutcome.noAction := by
  have h0n : a0.length ≠ 0 := fun hlen => h0 ((string_length_zero_iff a0).mp hlen)
  have h0b : (a0.length == 0) = false := by
    simpa using h0n
  simp only [pubmsg_otherchannel, hchan]
  simp only [pubmsgWithChan, hrole, hargs, h0b]
  cases hf : a0.front == '!'
  · right
    simp [hf]
  · left
    simp [hf]

/-- Witness for C6 at a concrete store, event and moderator badge. -/
theorem moderators_witness :
    pubmsg_otherchannel fUC3 rfFoundFalse 0 dbC6 evC6 = ModOutcome.commandDispatched
    ∨ pubmsg_otherchannel fUC3 rfFoundFalse 0 dbC6 evC6 = ModOutcome.noAction :=
  moderators_never_link_checked fUC3 rfFoundFalse 0 dbC6 evC6
    { name := "c", slash := true, subdomains := true, userlevel := some UserRole.VIP,
      reply := "default", allow_list := [] } "!links" ["list"]
    (by decide) (by decide) rfl (by decide)

/-- C7: `parse_badges` resolves the role of a badges tag to the maximum,
under the role order, of the roles denoted by the individual badge entries,
defaulting to USER (also for a missing tag). -/
theorem parse_badges_eq_rolesMax : ∀ b : Option String, parse_badges b = rolesMax b := by
  intro b
  cases b with
  | none => rfl
  | some s =>
    simp only [parse_badges, rolesMax]
    rw [List.foldl_map]
    exact foldl_fun_congr _ _ parse_badges_fold_step _ _

/-- C8: applying `!links allow x` any number of times (at least once) to a
channel whose allow list has no duplicates leaves the allow list containing
`x` exactly once: the insert suppresses duplicates and repeated application
is idempotent. -/
theorem links_allow_idempotent (chan : Channel) (x : String) (n : Nat)
    (h : chan.allow_list.Nodup) :
    ((fun c => linksAllowCmd c [x])^[n + 1] chan).allow_list.count x = 1 := by
  rw [Function.iterate_succ_apply]
  have h1 : (linksAllowCmd chan [x]).allow_list.count x = 1 := by
    rw [linksAllowCmd_single]
    exact count_allowInsert _ _ (List.nodup_iff_count_le_one.mp h x)
  have hmem : x ∈ (linksAllowCmd chan [x]).allow_list := by
    rw [linksAllowCmd_single]
    exact mem_allowInsert _ _
  have hfix : (fun c => linksAllowCmd c [x]) (linksAllowCmd chan [x]) = linksAllowCmd chan [x] :=
    linksAllowCmd_fix _ _ hmem
  rw [Function.iterate_fixed hfix]
  exact h1

/-- Witness for C8: two applications on a fresh default channel. -/
theorem links_allow_idempotent_witness :
    ((fun c => linksAllowCmd c ["example.com"])^[2] (Channel.fromDefaults "c")).allow_list.count
      "example.com" = 1 :=
  links_allow_idempotent (Channel.fromDefaults "c") "example.com" 1 (by decide)

/-- C9: after `setChannelCooldown` for a channel at time `t0`, every send
attempted through `send_privmsg` to that channel strictly within the
5-minute window is suppressed, and a send attempted at `t0 + 301` seconds
(5 minutes and one second later) goes out. -/
theorem cooldown_gates_sends (db : DbState) (target msg : String) (t0 t : Nat) :
    (t < t0 + 300 →
      send_privmsg (setChannelCooldown db t0 (target.drop 1)) t target msg = [])
    ∧ (t = t0 + 301 →
      send_privmsg (setChannelCooldown db t0 (target.drop 1)) t target msg = [(target, msg)]) := by
  have hget : alistGet (setChannelCooldown db t0 (target.drop 1)).eph
      ("cooldown:" ++ target.drop 1) = some (t0 + 300) := by
    unfold setChannelCooldown setex
    exact alistGet_alistSet _ _ _
  constructor
  · intro ht
    unfold send_privmsg checkChannelCooldown ephGet
    rw [hget]
    simp [ht]
  · intro ht
    unfold send_privmsg checkChannelCooldown ephGet
    rw [hget]
    have hnot : ¬ (t < t0 + 300) := by omega
    simp [hnot]

/-- Witness for C9 at `t0 = 0`, checking times 100 and 301. -/
theorem cooldown_gates_sends_witness :
    send_privmsg (setChannelCooldown emptyDb 0 ("#c".drop 1)) 100 "#c" "hi" = []
    ∧ send_privmsg (setChannelCooldown emptyDb 0 ("#c".drop 1)) 301 "#c" "hi" = [("#c", "hi")] :=
  ⟨(cooldown_gates_sends emptyDb "#c" "hi" 0 100).1 (by decide),
   (cooldown_gates_sends emptyDb "#c" "hi" 0 301).2 rfl⟩

/-- C10: `get_reply` returns no reply exactly when the reply template,
lowercased and with every occurrence of "__user__, " removed, equals "off"
(so "__user__, off" also disables replies); the same stripped comparison
selects the canned reply for "default". -/
theorem get_reply_off_iff (chan : Channel) (user : String) :
    (get_reply chan user = none ↔ pyReplace (pyLower chan.reply) "__user__, " "" = "off")
    ∧ (pyReplace (pyLower chan.reply) "__user__, " "" = "default" →
        get_reply chan user
          = some ("@" ++ user ++ ", please ask for permission before posting a link.")) := by
  unfold get_reply
  constructor
  · split_ifs with h1 h2
    · simp [h1]
    · simp [h1]
    · simp [h1]
  · intro hd
    have hne : ¬ (pyReplace (pyLower chan.reply) "__user__, " "" = "off") := by
      rw [hd]
      intro hcontra
      exact absurd hcontra (by decide)
    rw [if_neg hne, if_pos hd]

/-- Witness for C10: "__user__, off" disables the reply, "DeFaUlT" selects
the canned reply. -/
theorem get_reply_off_witness :
    get_reply chanOff "alice" = none
    ∧ get_reply chanDef "alice"
        = some "@alice, please ask for permission before posting a link." :=
  ⟨(get_reply_off_iff chanOff "alice").1.mpr (by decide),
   (get_reply_off_iff chanDef "alice").2 (by decide)⟩

end Ghirahim
